import Mathlib

/-!
Shallow embedding of the InShareX WebSocket signaling server (`server.js`).

Connections are identified by reference equality in the source; we model them
as natural numbers compared by equality.  Session ids are 6-decimal-digit
strings such as "123456"; since all live in the numeral range
[100000, 999999] we model them as the corresponding natural numbers.
JavaScript `Map`s become association lists with `Map.get` / `Map.set` /
`Map.delete` semantics (`set` overwrites in place when the key exists,
otherwise appends); JavaScript `Set`s become duplicate-free lists where
`add` appends only when absent and `delete` filters, preserving insertion
order just as `Set` iteration does.  Each `case` of the message `switch`
becomes one handler returning the new server state together with the list of
`(recipient, message)` sends it performs, in source order.
-/

namespace InShareX

/-- A live WebSocket connection, compared by identity. -/
abbrev Conn := Nat

/-- Pair-session record: `rooms.set(roomId, { host: ws, guest: null })`. -/
structure Room where
  host : Conn
  guest : Option Conn
deriving DecidableEq

/-- Group-session record created by `case 'create-group'`. -/
structure Group where
  host : Conn
  members : List Conn
  maxMembers : Nat
  isOpen : Bool
  createdAt : Nat
deriving DecidableEq

/-- `Map.prototype.get`: first entry with the key, if any. -/
def mapGet {α : Type} (m : List (Nat × α)) (k : Nat) : Option α :=
  match m with
  | [] => none
  | (k0, v) :: rest => if k0 = k then some v else mapGet rest k

/-- `Map.prototype.set`: overwrite in place when the key exists, else append
(a `Map` preserves the insertion position of an updated key). -/
def mapSet {α : Type} (m : List (Nat × α)) (k : Nat) (v : α) : List (Nat × α) :=
  match m with
  | [] => [(k, v)]
  | (k0, v0) :: rest => if k0 = k then (k, v) :: rest else (k0, v0) :: mapSet rest k v

/-- `Set.prototype.add`: append only when absent. -/
def setAdd (s : List Conn) (c : Conn) : List Conn :=
  if c ∈ s then s else s ++ [c]

/-- The two registries of the server: `rooms` and `groups`. -/
structure ServerState where
  rooms : List (Nat × Room)
  groups : List (Nat × Group)
deriving DecidableEq

/-- Outbound records the server sends (`ws.send(JSON.stringify(...))`).
Relayed messages (`signal`, `chat-message`, `group-chat`) are forwarded
verbatim, so the relay constructors carry the inbound record's fields;
opaque payload contents (sdp/candidate, chat text and metadata) are a
single abstract `payload` component. -/
inductive ServerMsg where
  | roomCreated (roomId : Nat)
  | peerJoined
  | error (message : String)
  | groupCreated (groupId maxMembers : Nat)
  | groupJoined (groupId memberCount maxMembers : Nat)
  | memberJoined (groupId memberCount : Nat)
  | groupClosed (groupId : Nat) (reason : Option String)
  | torrentShared (groupId : Nat) (magnetLink fileName : String)
      (fileSize : Nat) (infoHash : String)
  | signalRelay (roomId : Nat) (payload : Nat)
  | chatRelay (roomId : Nat) (payload : Nat)
  | groupChatRelay (groupId : Nat) (payload : Nat)
deriving DecidableEq

/-- One send: recipient connection paired with the outbound record. -/
abbrev Send := Conn × ServerMsg

/-- `generateUniqueRoomId`: draw `Math.floor(100000 + Math.random() * 900000)`
and re-draw while the candidate is a key of `rooms`.  The random source is a
list of draws `r = Math.floor(Math.random() * 900000)` (so `r < 900000`);
the do-while loop returns the first candidate `100000 + r` absent from the
registry, or `none` when the supplied draws are exhausted. -/
def generateUniqueRoomId (draws : List Nat) (rooms : List (Nat × Room)) : Option Nat :=
  match draws with
  | [] => none
  | r :: rest =>
      if (mapGet rooms (100000 + r)).isSome then
        generateUniqueRoomId rest rooms
      else
        some (100000 + r)

/-- `generateUniqueGroupId`: same scheme against the `groups` registry. -/
def generateUniqueGroupId (draws : List Nat) (groups : List (Nat × Group)) : Option Nat :=
  match draws with
  | [] => none
  | r :: rest =>
      if (mapGet groups (100000 + r)).isSome then
        generateUniqueGroupId rest groups
      else
        some (100000 + r)

/-- `case 'create-room'` with the already-generated id: store
`{ host: ws, guest: null }` and acknowledge with `room-created`. -/
def handleCreateRoom (st : ServerState) (ws : Conn) (roomId : Nat) :
    ServerState × List Send :=
  ({ st with rooms := mapSet st.rooms roomId { host := ws, guest := none } },
   [(ws, ServerMsg.roomCreated roomId)])

/-- `case 'join-room'`: succeed iff the room exists and `!room.guest`;
on success assign the guest and notify host then guest with `peer-joined`;
otherwise send the single error record to the requester. -/
def handleJoinRoom (st : ServerState) (ws : Conn) (roomId : Nat) :
    ServerState × List Send :=
  match mapGet st.rooms roomId with
  | some room =>
      match room.guest with
      | none =>
          ({ st with rooms := mapSet st.rooms roomId { host := room.host, guest := some ws } },
           [(room.host, ServerMsg.peerJoined), (ws, ServerMsg.peerJoined)])
      | some _ =>
          (st, [(ws, ServerMsg.error "Room not found or full")])
  | none =>
      (st, [(ws, ServerMsg.error "Room not found or full")])

/-- `case 'signal'`: `const target = ws === r.host ? r.guest : r.host;`
then `if (target) target.send(JSON.stringify(data))`.  The host slot is
always a connection object (truthy); only the guest slot may be null. -/
def handleSignal (st : ServerState) (ws : Conn) (roomId : Nat) (payload : Nat) :
    ServerState × List Send :=
  match mapGet st.rooms roomId with
  | some r =>
      match (if ws == r.host then r.guest else some r.host) with
      | some target => (st, [(target, ServerMsg.signalRelay roomId payload)])
      | none => (st, [])
  | none => (st, [])

/-- `case 'chat-message'`: relay the record to each of host and guest that is
present and differs from the sender. -/
def handleChatMessage (st : ServerState) (ws : Conn) (roomId : Nat) (payload : Nat) :
    ServerState × List Send :=
  match mapGet st.rooms roomId with
  | some room =>
      let hostSends : List Send :=
        if room.host != ws then [(room.host, ServerMsg.chatRelay roomId payload)] else []
      let guestSends : List Send :=
        match room.guest with
        | some g => if g != ws then [(g, ServerMsg.chatRelay roomId payload)] else []
        | none => []
      (st, hostSends ++ guestSends)
  | none => (st, [])

/-- `const maxMembers = data.maxMembers || 20`: absent or 0 (falsy) → 20. -/
def effectiveMaxMembers (requested : Option Nat) : Nat :=
  match requested with
  | none => 20
  | some n => if n == 0 then 20 else n

/-- `case 'create-group'` with the already-generated id: store the record
with the host as sole member, open, and acknowledge with `group-created`. -/
def handleCreateGroup (st : ServerState) (ws : Conn) (groupId : Nat)
    (requestedMax : Option Nat) (now : Nat) : ServerState × List Send :=
  let maxMembers := effectiveMaxMembers requestedMax
  let g : Group :=
    { host := ws, members := [ws], maxMembers := maxMembers,
      isOpen := true, createdAt := now }
  ({ st with groups := mapSet st.groups groupId g },
   [(ws, ServerMsg.groupCreated groupId maxMembers)])

/-- `case 'join-group'`: succeed iff the group exists, is open, and
`members.size < maxMembers`; on success add the requester to the member
set, send `member-joined` (with the new count) to every member other than
the requester, then `group-joined` to the requester; otherwise send one
error record whose message depends only on whether the group exists. -/
def handleJoinGroup (st : ServerState) (ws : Conn) (groupId : Nat) :
    ServerState × List Send :=
  match mapGet st.groups groupId with
  | some group =>
      if group.isOpen && decide (group.members.length < group.maxMembers) then
        let newMembers := setAdd group.members ws
        ({ st with groups := mapSet st.groups groupId { group with members := newMembers } },
         ((newMembers.filter (fun m => m != ws)).map
            (fun m => (m, ServerMsg.memberJoined groupId newMembers.length)))
           ++ [(ws, ServerMsg.groupJoined groupId newMembers.length group.maxMembers)])
      else
        (st, [(ws, ServerMsg.error "Group is full or closed")])
  | none =>
      (st, [(ws, ServerMsg.error "Group not found")])

/-- `case 'close-group'`: only when the requester is the stored host, set
`isOpen = false` and send `group-closed` to every current member (the
iteration does not exclude the host); otherwise do nothing. -/
def handleCloseGroup (st : ServerState) (ws : Conn) (groupId : Nat) :
    ServerState × List Send :=
  match mapGet st.groups groupId with
  | some group =>
      if group.host == ws then
        ({ st with groups := mapSet st.groups groupId { group with isOpen := false } },
         group.members.map (fun m => (m, ServerMsg.groupClosed groupId none)))
      else (st, [])
  | none => (st, [])

/-- `case 'share-torrent'`: only when the requester is the stored host,
send `torrent-shared` to every member other than the requester. -/
def handleShareTorrent (st : ServerState) (ws : Conn) (groupId : Nat)
    (magnetLink fileName : String) (fileSize : Nat) (infoHash : String) :
    ServerState × List Send :=
  match mapGet st.groups groupId with
  | some group =>
      if group.host == ws then
        (st, (group.members.filter (fun m => m != ws)).map
          (fun m => (m, ServerMsg.torrentShared groupId magnetLink fileName fileSize infoHash)))
      else (st, [])
  | none => (st, [])

/-- `case 'group-chat'`: only when the sender is currently a member, relay
the record to every member other than the sender. -/
def handleGroupChat (st : ServerState) (ws : Conn) (groupId : Nat) (payload : Nat) :
    ServerState × List Send :=
  match mapGet st.groups groupId with
  | some group =>
      if group.members.contains ws then
        (st, (group.members.filter (fun m => m != ws)).map
          (fun m => (m, ServerMsg.groupChatRelay groupId payload)))
      else (st, [])
  | none => (st, [])

/-- Room half of `ws.on('close')`: delete every room whose host or guest is
the closed connection.  No send is performed. -/
def cleanupRooms (rooms : List (Nat × Room)) (ws : Conn) : List (Nat × Room) :=
  rooms.filter (fun p => !(p.2.host == ws || p.2.guest == some ws))

/-- Group half of `ws.on('close')` for one registry entry: when the closed
connection is a member, remove it; if it was the host, notify every
remaining member with `group-closed{reason: "Host disconnected"}` and drop
the record; if the membership became empty, drop the record silently;
otherwise keep the shrunken group.  Returns the surviving record (if any)
and the sends. -/
def cleanupGroup (groupId : Nat) (group : Group) (ws : Conn) :
    Option Group × List Send :=
  if group.members.contains ws then
    if group.host == ws then
      (none, (group.members.filter (fun m => m != ws)).map
        (fun m => (m, ServerMsg.groupClosed groupId (some "Host disconnected"))))
    else if (group.members.filter (fun m => m != ws)).length == 0 then
      (none, [])
    else
      (some { group with members := group.members.filter (fun m => m != ws) }, [])
  else
    (some group, [])

/-- Group half of `ws.on('close')` over the whole registry, in entry order. -/
def cleanupGroups (groups : List (Nat × Group)) (ws : Conn) :
    List (Nat × Group) × List Send :=
  match groups with
  | [] => ([], [])
  | (gid, g) :: rest =>
      (match (cleanupGroup gid g ws).1 with
       | some g2 => (gid, g2) :: (cleanupGroups rest ws).1
       | none => (cleanupGroups rest ws).1,
       (cleanupGroup gid g ws).2 ++ (cleanupGroups rest ws).2)

/-- `ws.on('close')`: room cleanup (silent) then group cleanup. -/
def handleClose (st : ServerState) (ws : Conn) : ServerState × List Send :=
  let groupsResult := cleanupGroups st.groups ws
  ({ rooms := cleanupRooms st.rooms ws, groups := groupsResult.1 }, groupsResult.2)

/-! ### Registry (JS `Map` / `Set`) lemmas -/

theorem mapGet_mapSet_self {α : Type} (m : List (Nat × α)) (k : Nat) (v : α) :
    mapGet (mapSet m k v) k = some v := by
  induction m with
  | nil => simp [mapSet, mapGet]
  | cons hd tl ih =>
      obtain ⟨k0, v0⟩ := hd
      by_cases h : k0 = k
      · simp [mapSet, mapGet, h]
      · simp [mapSet, mapGet, h, ih]

theorem mapGet_mapSet_ne {α : Type} (m : List (Nat × α)) (j k : Nat) (v : α)
    (h : j ≠ k) : mapGet (mapSet m k v) j = mapGet m j := by
  induction m with
  | nil => simp [mapSet, mapGet, Ne.symm h]
  | cons hd tl ih =>
      obtain ⟨k0, v0⟩ := hd
      by_cases h0 : k0 = k
      · subst h0
        simp [mapSet, mapGet, Ne.symm h]
      · simp [mapSet, mapGet, h0, ih]

theorem mapGet_eq_none_of_not_mem {α : Type} (m : List (Nat × α)) (k : Nat)
    (h : k ∉ m.map Prod.fst) : mapGet m k = none := by
  induction m with
  | nil => rfl
  | cons hd tl ih =>
      obtain ⟨k0, v0⟩ := hd
      simp only [List.map_cons, List.mem_cons] at h
      push_neg at h
      simp [mapGet, Ne.symm h.1, ih h.2]

theorem mapGet_mem {α : Type} (m : List (Nat × α)) (k : Nat) (v : α)
    (h : mapGet m k = some v) : (k, v) ∈ m := by
  induction m with
  | nil => simp [mapGet] at h
  | cons hd tl ih =>
      obtain ⟨k0, v0⟩ := hd
      by_cases h0 : k0 = k
      · subst h0
        simp [mapGet] at h
        simp [h]
      · simp [mapGet, h0] at h
        exact List.mem_cons_of_mem _ (ih h)

theorem mapGet_of_mem_nodup {α : Type} (m : List (Nat × α)) (k : Nat) (v : α)
    (hn : (m.map Prod.fst).Nodup) (h : (k, v) ∈ m) : mapGet m k = some v := by
  induction m with
  | nil => simp at h
  | cons hd tl ih =>
      obtain ⟨k0, v0⟩ := hd
      simp only [List.map_cons, List.nodup_cons] at hn
      rcases List.mem_cons.mp h with h1 | h1
      · injection h1 with hk hv
        subst hk
        subst hv
        simp [mapGet]
      · have hk : k0 ≠ k := by
          intro hh
          subst hh
          exact hn.1 (List.mem_map.mpr ⟨(k0, v), h1, rfl⟩)
        simp [mapGet, hk, ih hn.2 h1]

theorem mapGet_filter_none {α : Type} (m : List (Nat × α)) (k : Nat) (v : α)
    (p : Nat × α → Bool) (hn : (m.map Prod.fst).Nodup)
    (h : mapGet m k = some v) (hp : p (k, v) = false) :
    mapGet (m.filter p) k = none := by
  induction m with
  | nil => simp [mapGet] at h
  | cons hd tl ih =>
      obtain ⟨k0, v0⟩ := hd
      simp only [List.map_cons, List.nodup_cons] at hn
      by_cases h0 : k0 = k
      · subst h0
        simp only [mapGet, if_true] at h
        have hv : v0 = v := by simpa using h
        subst hv
        rw [List.filter_cons_of_neg (by simp [hp])]
        apply mapGet_eq_none_of_not_mem
        intro hmem
        have hsub : (tl.filter p).map Prod.fst ⊆ tl.map Prod.fst :=
          List.map_subset Prod.fst (List.filter_sublist _).subset
        exact hn.1 (hsub hmem)
      · simp only [mapGet, if_neg h0] at h
        by_cases hpk : p (k0, v0) = true
        · rw [List.filter_cons_of_pos hpk]
          simp [mapGet, h0, ih hn.2 h]
        · rw [List.filter_cons_of_neg (by simpa using hpk)]
          exact ih hn.2 h

/-! ### Claim C1: `signal` relay routing -/

/-- Claim C1, counterexample.  The claim states that a `signal` from a
connection that is neither host nor guest is relayed to the *guest*.  In the
room `1 ↦ \x7bhost 0, guest 1\x7d`, a `signal` from the stranger connection `2`
takes the else-branch of `ws === r.host ? r.guest : r.host` and is relayed
to the host `0`, which is distinct from the guest `1`. -/
theorem C1_counterexample :
    (handleSignal { rooms := [(1, { host := 0, guest := some 1 })], groups := [] }
        2 1 42).2 = [(0, ServerMsg.signalRelay 1 42)] ∧ (0 : Conn) ≠ 1 := by
  constructor
  · rfl
  · decide

/-- Claim C1, amended.  For a `signal` on a live session: a signal from the
host is relayed to the guest only (no traffic if the guest slot is empty);
a signal from any other connection — the guest or an unrecognized sender —
is relayed to the host only (the equality fallback treats any unrecognized
sender as the host's *guest*, so the computed "other" is the host).  If the
session id is absent no outbound message and no error is produced, and the
registries are never mutated. -/
theorem C1_relay (st : ServerState) (ws : Conn) (roomId payload : Nat) :
    (handleSignal st ws roomId payload).1 = st ∧
    (match mapGet st.rooms roomId with
     | none => (handleSignal st ws roomId payload).2 = []
     | some r =>
         if ws = r.host then
           match r.guest with
           | some g => (handleSignal st ws roomId payload).2 =
               [(g, ServerMsg.signalRelay roomId payload)]
           | none => (handleSignal st ws roomId payload).2 = []
         else
           (handleSignal st ws roomId payload).2 =
             [(r.host, ServerMsg.signalRelay roomId payload)]) := by
  unfold handleSignal
  cases hm : mapGet st.rooms roomId with
  | none => simp
  | some r =>
      by_cases hw : ws = r.host
      · cases hg : r.guest <;> simp [hw, hg]
      · simp [hw]

/-! ### Claim C2: `create-room` id generation -/

/-- Claim C2.  Whenever the do-while generator terminates (returns an id),
the id is a 6-decimal-digit numeral in `[100000, 999999]` that is absent
from the room registry's key set, and the subsequent `rooms.set` of
`create-room` appends a fresh entry: every live session keeps its entry
unchanged and its id differs from the returned one, so ids of live sessions
stay pairwise distinct and no live entry is overwritten. -/
theorem C2_create_room_unique (draws : List Nat) (st : ServerState) (ws roomId : Nat)
    (hdraws : ∀ r ∈ draws, r < 900000)
    (hgen : generateUniqueRoomId draws st.rooms = some roomId) :
    100000 ≤ roomId ∧ roomId ≤ 999999 ∧ mapGet st.rooms roomId = none ∧
    ∀ k v, mapGet st.rooms k = some v →
      k ≠ roomId ∧ mapGet (handleCreateRoom st ws roomId).1.rooms k = some v := by
  induction draws with
  | nil => simp [generateUniqueRoomId] at hgen
  | cons r rest ih =>
      rw [generateUniqueRoomId] at hgen
      by_cases hs : (mapGet st.rooms (100000 + r)).isSome
      · rw [if_pos hs] at hgen
        exact ih (fun x hx => hdraws x (List.mem_cons_of_mem _ hx)) hgen
      · rw [if_neg hs] at hgen
        have hid : roomId = 100000 + r := by
          simpa using hgen.symm
        have hr : r < 900000 := hdraws r (List.mem_cons_self _ _)
        subst hid
        have hnone : mapGet st.rooms (100000 + r) = none :=
          Option.not_isSome_iff_eq_none.mp hs
        refine ⟨by omega, by omega, hnone, ?_⟩
        intro k v hk
        have hne : k ≠ 100000 + r := by
          intro hh
          rw [hh, hnone] at hk
          exact Option.noConfusion hk
        refine ⟨hne, ?_⟩
        show mapGet (mapSet st.rooms (100000 + r) { host := ws, guest := none }) k = some v
        rw [mapGet_mapSet_ne _ _ _ _ hne]
        exact hk

/-- Sample registry for the C2 witness: one live room with id 100005, so
the first draw collides and the generator re-draws. -/
def sampleRoomsC2 : List (Nat × Room) := [(100005, { host := 7, guest := none })]

/-- Claim C2, witness.  On draws `[5, 0]` against a registry holding id
100005, the generator skips the colliding candidate 100005 and returns
100000, which is fresh; the live entry 100005 survives `create-room`. -/
theorem C2_create_room_unique_witness :
    (5 < 900000 ∧ 0 < 900000) ∧
    generateUniqueRoomId [5, 0] sampleRoomsC2 = some 100000 ∧
    mapGet sampleRoomsC2 100000 = none ∧
    ((100005 : Nat) ≠ 100000 ∧
      mapGet (handleCreateRoom { rooms := sampleRoomsC2, groups := [] } 3 100000).1.rooms
        100005 = some { host := 7, guest := none }) := by
  refine ⟨by decide, by decide, ?_, ?_⟩
  · exact (C2_create_room_unique [5, 0] { rooms := sampleRoomsC2, groups := [] } 3 100000
      (by decide) (by decide)).2.2.1
  · exact (C2_create_room_unique [5, 0] { rooms := sampleRoomsC2, groups := [] } 3 100000
      (by decide) (by decide)).2.2.2 100005 { host := 7, guest := none } (by decide)

/-! ### Claim C3: pair-session host/guest distinctness -/

/-- Claim C3, counterexample.  The claim asserts that no operation sequence
can make host and guest the same connection.  But `join-room` never checks
the requester against the host: connection 0 creates room 100000 and then
joins it itself, after which the room is `\x7bhost 0, guest 0\x7d`. -/
theorem C3_counterexample :
    mapGet (handleJoinRoom (handleCreateRoom { rooms := [], groups := [] } 0 100000).1
        0 100000).1.rooms 100000 = some { host := 0, guest := some 0 } := by
  decide

/-- Claim C3, amended.  Each pair-session has at most one guest (the guest is
a single optional slot) and a join only ever fills an *empty* slot with the
requesting connection, leaving the host unchanged; but the requester is not
compared with the host, so host and guest coincide after a join exactly
when the host joined its own session, and are distinct whenever the joiner
is any other connection. -/
theorem C3_join_guest (st : ServerState) (ws : Conn) (roomId : Nat) :
    match mapGet st.rooms roomId with
    | none => (handleJoinRoom st ws roomId).1 = st
    | some room =>
        match room.guest with
        | some _ => (handleJoinRoom st ws roomId).1 = st
        | none =>
            mapGet (handleJoinRoom st ws roomId).1.rooms roomId
              = some { host := room.host, guest := some ws } := by
  unfold handleJoinRoom
  cases hm : mapGet st.rooms roomId with
  | none => simp
  | some room =>
      cases hg : room.guest with
      | some g => simp [hg]
      | none =>
          simp only [hg]
          exact mapGet_mapSet_self st.rooms roomId { host := room.host, guest := some ws }

/-! ### Claim C4: `join-room` failure responses -/

/-- Claim C4, counterexample.  The claim asserts the two failure cases
(absent id vs. occupied guest slot) yield two *distinct* error outcomes.
In the state with the full room `1 ↦ \x7bhost 0, guest 1\x7d`, a join on the
absent id 2 and a join on the full room 1 send the *identical* outbound
record `error\x7b"Room not found or full"\x7d` to the requester. -/
theorem C4_counterexample :
    (handleJoinRoom { rooms := [(1, { host := 0, guest := some 1 })], groups := [] } 2 2).2
      = [(2, ServerMsg.error "Room not found or full")] ∧
    (handleJoinRoom { rooms := [(1, { host := 0, guest := some 1 })], groups := [] } 2 1).2
      = [(2, ServerMsg.error "Room not found or full")] := by
  constructor <;> rfl

/-- Claim C4, amended.  A join on an absent id and a join on a session whose
guest slot is filled both fail by sending the requester the *same single*
error record, `error\x7b"Room not found or full"\x7d`, leaving the state
unchanged (the SessionNotFound / SessionFull distinction of the error
taxonomy is not surfaced); a join on a live session with an empty guest
slot succeeds and notifies host then joiner with `peer-joined`. -/
theorem C4_join_errors (st : ServerState) (ws : Conn) (roomId : Nat) :
    match mapGet st.rooms roomId with
    | none =>
        handleJoinRoom st ws roomId
          = (st, [(ws, ServerMsg.error "Room not found or full")])
    | some room =>
        match room.guest with
        | some _ =>
            handleJoinRoom st ws roomId
              = (st, [(ws, ServerMsg.error "Room not found or full")])
        | none =>
            (handleJoinRoom st ws roomId).2
              = [(room.host, ServerMsg.peerJoined), (ws, ServerMsg.peerJoined)] := by
  unfold handleJoinRoom
  cases hm : mapGet st.rooms roomId with
  | none => simp
  | some room =>
      cases hg : room.guest with
      | some g => simp [hg]
      | none => simp [hg]

/-! ### Claim C5: group capacity and `join-group` failures -/

/-- Claim C5.  `create-group` without a `maxMembers` field stores a group
whose capacity is 20 and whose member set is the singleton host.  A
`join-group` succeeds exactly while the group is open and its member set is
strictly below capacity (so with the default 20 and distinct joiners, joins
succeed up to and including the 20th member); when the group exists but is
closed or at capacity the requester gets the single error record
`error\x7b"Group is full or closed"\x7d`, and when the id is absent it gets
`error\x7b"Group not found"\x7d`, with the state unchanged in both failures. -/
theorem C5_group_capacity (st st2 : ServerState) (ws c : Conn) (groupId gid2 now : Nat) :
    mapGet (handleCreateGroup st ws groupId none now).1.groups groupId
      = some { host := ws, members := [ws], maxMembers := 20,
               isOpen := true, createdAt := now } ∧
    (match mapGet st2.groups gid2 with
     | none => handleJoinGroup st2 c gid2 = (st2, [(c, ServerMsg.error "Group not found")])
     | some g =>
         if g.isOpen = true ∧ g.members.length < g.maxMembers then
           mapGet (handleJoinGroup st2 c gid2).1.groups gid2
             = some { g with members := setAdd g.members c }
         else
           handleJoinGroup st2 c gid2
             = (st2, [(c, ServerMsg.error "Group is full or closed")])) := by
  constructor
  · exact mapGet_mapSet_self st.groups groupId _
  · unfold handleJoinGroup
    cases hm : mapGet st2.groups gid2 with
    | none => simp
    | some g =>
        by_cases hc : g.isOpen = true ∧ g.members.length < g.maxMembers
        · have hb : (g.isOpen && decide (g.members.length < g.maxMembers)) = true := by
            simp [hc.1, hc.2]
          simp [hb, hc, mapGet_mapSet_self]
        · have hb : (g.isOpen && decide (g.members.length < g.maxMembers)) = false := by
            rcases not_and_or.mp hc with h1 | h1
            · cases hOpen : g.isOpen
              · simp
              · exact absurd hOpen h1
            · simp [decide_eq_false h1]
          simp [hb, hc]

/-! ### Claim C7: `close-group` authorization and broadcast -/

/-- Claim C7.  A `close-group` by anyone other than the stored host leaves
the state unchanged and sends nothing (so `isOpen` keeps its value).  A
`close-group` by the host sets `isOpen := false` while keeping the member
set and the registry entry, and sends `group-closed` to every current
member — the broadcast iterates the whole member set without excluding the
requester, so the host (a member since creation) is notified too. -/
theorem C7_close_group (st : ServerState) (ws : Conn) (groupId : Nat) :
    match mapGet st.groups groupId with
    | none => handleCloseGroup st ws groupId = (st, [])
    | some g =>
        if g.host = ws then
          mapGet (handleCloseGroup st ws groupId).1.groups groupId
            = some { g with isOpen := false } ∧
          (handleCloseGroup st ws groupId).2
            = g.members.map (fun m => (m, ServerMsg.groupClosed groupId none)) ∧
          (handleCloseGroup st ws groupId).1.rooms = st.rooms
        else handleCloseGroup st ws groupId = (st, []) := by
  unfold handleCloseGroup
  cases hm : mapGet st.groups groupId with
  | none => simp
  | some g =>
      by_cases hh : g.host = ws
      · have hb : (g.host == ws) = true := by simp [hh]
        simp [hh, hb, mapGet_mapSet_self]
      · have hb : (g.host == ws) = false := by simpa using hh
        simp [hh, hb]

/-! ### Claim C9: host/membership authorization for group fan-out -/

/-- Claim C9.  A `share-torrent` whose sender is not the stored host, and a
`group-chat` whose sender is not currently a member, leave the state
unchanged and send nothing at all (no error either); the same holds when
the group id is absent.  An authorized request is broadcast to every member
of the group except the sender, verbatim for `group-chat`. -/
theorem C9_group_authorization (st : ServerState) (ws : Conn) (groupId fs payload : Nat)
    (ml fn ih2 : String) :
    (match mapGet st.groups groupId with
     | none => handleShareTorrent st ws groupId ml fn fs ih2 = (st, [])
     | some g =>
         if g.host = ws then
           handleShareTorrent st ws groupId ml fn fs ih2
             = (st, (g.members.filter (fun m => m != ws)).map
                 (fun m => (m, ServerMsg.torrentShared groupId ml fn fs ih2)))
         else handleShareTorrent st ws groupId ml fn fs ih2 = (st, [])) ∧
    (match mapGet st.groups groupId with
     | none => handleGroupChat st ws groupId payload = (st, [])
     | some g =>
         if ws ∈ g.members then
           handleGroupChat st ws groupId payload
             = (st, (g.members.filter (fun m => m != ws)).map
                 (fun m => (m, ServerMsg.groupChatRelay groupId payload)))
         else handleGroupChat st ws groupId payload = (st, [])) := by
  constructor
  · unfold handleShareTorrent
    cases hm : mapGet st.groups groupId with
    | none => simp
    | some g =>
        by_cases hh : g.host = ws
        · have hb : (g.host == ws) = true := by simp [hh]
          simp [hh, hb]
        · have hb : (g.host == ws) = false := by simpa using hh
          simp [hh, hb]
  · unfold handleGroupChat
    cases hm : mapGet st.groups groupId with
    | none => simp
    | some g =>
        by_cases hh : ws ∈ g.members
        · have hb : (g.members.contains ws) = true := by
            simp [List.elem_iff]
            exact hh
          simp [hh, hb]
        · have hb : (g.members.contains ws) = false := by simpa using hh
          simp [hh, hb]

/-! ### Claim C10: re-join by an existing member -/

/-- Claim C10.  A `join-group` by a connection that is already a member of an
open, under-capacity group (the host included) is accepted: `Set.add` of an
existing element leaves the member set — and hence the stored record —
unchanged, yet the requester still receives a `group-joined`
acknowledgement and every other member a `member-joined` update, both
carrying the unchanged member count. -/
theorem C10_member_rejoin (st : ServerState) (c : Conn) (gid : Nat) (g : Group)
    (hget : mapGet st.groups gid = some g) (hopen : g.isOpen = true)
    (hcap : g.members.length < g.maxMembers) (hmem : c ∈ g.members) :
    mapGet (handleJoinGroup st c gid).1.groups gid = some g ∧
    (handleJoinGroup st c gid).2 =
      (g.members.filter (fun m => m != c)).map
        (fun m => (m, ServerMsg.memberJoined gid g.members.length))
      ++ [(c, ServerMsg.groupJoined gid g.members.length g.maxMembers)] := by
  have hadd : setAdd g.members c = g.members := by simp [setAdd, hmem]
  unfold handleJoinGroup
  rw [hget]
  have hb : (g.isOpen && decide (g.members.length < g.maxMembers)) = true := by
    simp [hopen, hcap]
  simp only [hb, if_true, hadd]
  exact ⟨mapGet_mapSet_self st.groups gid g, trivial⟩

/-- Sample group for the C10 witness: host 0 with members `[0, 1]`, open,
capacity 5; the host itself re-joins. -/
def sampleGroupC10 : Group :=
  { host := 0, members := [0, 1], maxMembers := 5, isOpen := true, createdAt := 0 }

/-- Claim C10, witness.  The host 0 re-joins its own group 7: the stored
record is unchanged, 0 receives `group-joined\x7bmemberCount 2\x7d` and the
other member 1 receives `member-joined\x7bmemberCount 2\x7d`. -/
theorem C10_member_rejoin_witness :
    mapGet [(7, sampleGroupC10)] 7 = some sampleGroupC10 ∧
    sampleGroupC10.isOpen = true ∧
    sampleGroupC10.members.length < sampleGroupC10.maxMembers ∧
    0 ∈ sampleGroupC10.members ∧
    mapGet (handleJoinGroup { rooms := [], groups := [(7, sampleGroupC10)] } 0 7).1.groups 7
      = some sampleGroupC10 ∧
    (handleJoinGroup { rooms := [], groups := [(7, sampleGroupC10)] } 0 7).2
      = [(1, ServerMsg.memberJoined 7 2), (0, ServerMsg.groupJoined 7 2 5)] := by
  have h := C10_member_rejoin { rooms := [], groups := [(7, sampleGroupC10)] } 0 7
    sampleGroupC10 (by decide) (by decide) (by decide) (by decide)
  refine ⟨by decide, by decide, by decide, by decide, h.1, ?_⟩
  rw [h.2]
  rfl

/-! ### Disconnect-handler lemmas -/

theorem contains_eq_true_of_mem {l : List Conn} {a : Conn} (h : a ∈ l) :
    l.contains a = true := by
  simp [List.elem_iff]
  exact h

theorem cleanupGroups_keys_subset (groups : List (Nat × Group)) (ws : Conn) :
    ((cleanupGroups groups ws).1).map Prod.fst ⊆ groups.map Prod.fst := by
  induction groups with
  | nil => simp [cleanupGroups]
  | cons hd tl ih =>
      obtain ⟨gid, g⟩ := hd
      intro x hx
      rw [cleanupGroups] at hx
      cases h : (cleanupGroup gid g ws).1 with
      | some g2 =>
          rw [h] at hx
          simp only [List.map_cons, List.mem_cons] at hx
          rcases hx with h1 | h1
          · simp [h1]
          · exact List.mem_cons_of_mem _ (ih h1)
      | none =>
          rw [h] at hx
          exact List.mem_cons_of_mem _ (ih hx)

theorem cleanupGroup_sends_shape (gid : Nat) (g : Group) (ws : Conn) (s : Send)
    (h : s ∈ (cleanupGroup gid g ws).2) :
    g.host = ws ∧ ∃ m, m ∈ g.members ∧ m ≠ ws ∧
      s = (m, ServerMsg.groupClosed gid (some "Host disconnected")) := by
  unfold cleanupGroup at h
  by_cases hmem : g.members.contains ws = true
  · rw [if_pos hmem] at h
    by_cases hh : (g.host == ws) = true
    · rw [if_pos hh] at h
      rcases List.mem_map.mp h with ⟨m, hm, rfl⟩
      rcases List.mem_filter.mp hm with ⟨hm1, hm2⟩
      exact ⟨by simpa using hh, m, hm1, by simpa using hm2, rfl⟩
    · rw [if_neg hh] at h
      by_cases hz : ((g.members.filter (fun m => m != ws)).length == 0) = true
      · rw [if_pos hz] at h
        simp at h
      · rw [if_neg hz] at h
        simp at h
  · rw [if_neg hmem] at h
    simp at h

theorem cleanupGroups_sends_source (groups : List (Nat × Group)) (ws : Conn) (s : Send)
    (h : s ∈ (cleanupGroups groups ws).2) :
    ∃ gid g, (gid, g) ∈ groups ∧ s ∈ (cleanupGroup gid g ws).2 := by
  induction groups with
  | nil => simp [cleanupGroups] at h
  | cons hd tl ih =>
      obtain ⟨gid, g⟩ := hd
      rw [cleanupGroups] at h
      rcases List.mem_append.mp h with h1 | h1
      · exact ⟨gid, g, List.mem_cons_self _ _, h1⟩
      · rcases ih h1 with ⟨gid2, g2, hmem, hs⟩
        exact ⟨gid2, g2, List.mem_cons_of_mem _ hmem, hs⟩

theorem cleanupGroups_sends_cover (groups : List (Nat × Group)) (ws : Conn)
    (gid : Nat) (g : Group) (hget : mapGet groups gid = some g) :
    ∀ s ∈ (cleanupGroup gid g ws).2, s ∈ (cleanupGroups groups ws).2 := by
  induction groups with
  | nil => simp [mapGet] at hget
  | cons hd tl ih =>
      obtain ⟨k0, g0⟩ := hd
      intro s hs
      rw [cleanupGroups]
      by_cases h0 : k0 = gid
      · subst h0
        have hg : g0 = g := by simpa [mapGet] using hget
        subst hg
        exact List.mem_append_left _ hs
      · have hget2 : mapGet tl gid = some g := by simpa [mapGet, h0] using hget
        exact List.mem_append_right _ (ih hget2 s hs)

theorem cleanupGroups_mapGet (groups : List (Nat × Group)) (ws : Conn)
    (gid : Nat) (g : Group) (hn : (groups.map Prod.fst).Nodup)
    (hget : mapGet groups gid = some g) :
    mapGet (cleanupGroups groups ws).1 gid = (cleanupGroup gid g ws).1 := by
  induction groups with
  | nil => simp [mapGet] at hget
  | cons hd tl ih =>
      obtain ⟨k0, g0⟩ := hd
      simp only [List.map_cons, List.nodup_cons] at hn
      rw [cleanupGroups]
      by_cases h0 : k0 = gid
      · subst h0
        have hg : g0 = g := by simpa [mapGet] using hget
        subst hg
        cases hcg : (cleanupGroup k0 g0 ws).1 with
        | some g2 => simp [mapGet]
        | none =>
            apply mapGet_eq_none_of_not_mem
            intro hmemk
            exact hn.1 (cleanupGroups_keys_subset tl ws hmemk)
      · have hget2 : mapGet tl gid = some g := by simpa [mapGet, h0] using hget
        cases hcg : (cleanupGroup k0 g0 ws).1 with
        | some g2 => simp [mapGet, h0, ih hn.2 hget2]
        | none => simpa using ih hn.2 hget2

/-! ### Claim C6: group cleanup on disconnect -/

/-- Claim C6.  When a connection `ws` closes while being a member of group
`gid`: if it was the host, the group record is deleted, every remaining
member receives `group-closed\x7breason: "Host disconnected"\x7d`, and a
subsequent join on that id fails with `error\x7b"Group not found"\x7d`; if it
was not the host and the remaining member list is empty the record is
deleted with no group-closed notification for `gid`; otherwise the group
stays registered with exactly the shrunken member set, again with no
notification about `gid` to anyone. -/
theorem C6_disconnect_group (st : ServerState) (ws c : Conn) (gid : Nat) (g : Group)
    (hn : (st.groups.map Prod.fst).Nodup)
    (hget : mapGet st.groups gid = some g)
    (hmem : ws ∈ g.members) :
    (g.host = ws →
        mapGet (handleClose st ws).1.groups gid = none ∧
        (∀ m, m ∈ g.members → m ≠ ws →
          (m, ServerMsg.groupClosed gid (some "Host disconnected"))
            ∈ (handleClose st ws).2) ∧
        handleJoinGroup (handleClose st ws).1 c gid
          = ((handleClose st ws).1, [(c, ServerMsg.error "Group not found")])) ∧
    (g.host ≠ ws → g.members.filter (fun m => m != ws) = [] →
        mapGet (handleClose st ws).1.groups gid = none ∧
        ∀ s ∈ (handleClose st ws).2, ∀ reason,
          s.2 ≠ ServerMsg.groupClosed gid reason) ∧
    (g.host ≠ ws → g.members.filter (fun m => m != ws) ≠ [] →
        mapGet (handleClose st ws).1.groups gid
          = some { g with members := g.members.filter (fun m => m != ws) } ∧
        ∀ s ∈ (handleClose st ws).2, ∀ reason,
          s.2 ≠ ServerMsg.groupClosed gid reason) := by
  have hcont : g.members.contains ws = true := contains_eq_true_of_mem hmem
  have hgroups : (handleClose st ws).1.groups = (cleanupGroups st.groups ws).1 := rfl
  have hsends : (handleClose st ws).2 = (cleanupGroups st.groups ws).2 := rfl
  have hmg := cleanupGroups_mapGet st.groups ws gid g hn hget
  have noNotif : g.host ≠ ws → ∀ s ∈ (handleClose st ws).2, ∀ reason,
      s.2 ≠ ServerMsg.groupClosed gid reason := by
    intro hh s hs reason heq
    rw [hsends] at hs
    rcases cleanupGroups_sends_source st.groups ws s hs with ⟨gid2, g2, hmem2, hs2⟩
    rcases cleanupGroup_sends_shape gid2 g2 ws s hs2 with ⟨hhost2, m, _, _, hform⟩
    have hgid : gid2 = gid := by
      rw [hform] at heq
      exact (ServerMsg.groupClosed.injEq _ _ _ _ ▸ heq).1
    subst hgid
    have : g2 = g := by
      have h1 := mapGet_of_mem_nodup st.groups gid2 g2 hn hmem2
      rw [hget] at h1
      exact (Option.some.injEq _ _ ▸ h1).symm
    subst this
    exact hh hhost2
  refine ⟨?_, ?_, ?_⟩
  · intro hh
    have hcg : (cleanupGroup gid g ws).1 = none := by
      simp [cleanupGroup, hcont, hmem, hh]
    have hnone : mapGet (handleClose st ws).1.groups gid = none := by
      rw [hgroups, hmg, hcg]
    refine ⟨hnone, ?_, ?_⟩
    · intro m hm hmne
      rw [hsends]
      apply cleanupGroups_sends_cover st.groups ws gid g hget
      have hcg2 : (cleanupGroup gid g ws).2
          = (g.members.filter (fun m => m != ws)).map
              (fun m => (m, ServerMsg.groupClosed gid (some "Host disconnected"))) := by
        simp [cleanupGroup, hcont, hmem, hh]
      rw [hcg2]
      exact List.mem_map.mpr
        ⟨m, List.mem_filter.mpr ⟨hm, by simpa using hmne⟩, rfl⟩
    · unfold handleJoinGroup
      rw [hnone]
  · intro hh hrem
    have hcg : (cleanupGroup gid g ws).1 = none := by
      have hb : (g.host == ws) = false := by simpa using hh
      simp [cleanupGroup, hcont, hmem, hb, hrem]
    exact ⟨by rw [hgroups, hmg, hcg], noNotif hh⟩
  · intro hh hrem
    have hb : (g.host == ws) = false := by simpa using hh
    have hlen : ((g.members.filter (fun m => m != ws)).length == 0) = false := by
      simpa using hrem
    have hcg : (cleanupGroup gid g ws).1
        = some { g with members := g.members.filter (fun m => m != ws) } := by
      simp [cleanupGroup, hcont, hmem, hb, hlen]
    exact ⟨by rw [hgroups, hmg, hcg], noNotif hh⟩

/-- Sample group for the C6 witness: host 0, members `[0, 1, 2]`. -/
def sampleGroupC6 : Group :=
  { host := 0, members := [0, 1, 2], maxMembers := 20, isOpen := true, createdAt := 0 }

/-- Claim C6, witness.  In the registry `\x7b7 ↦ sampleGroupC6\x7d`: the host 0
disconnecting deletes group 7, notifies the remaining member 1 with
`group-closed\x7b"Host disconnected"\x7d`, and a later join by 5 gets
`error\x7b"Group not found"\x7d`; the non-host member 2 disconnecting instead
leaves the group registered with members `[0, 1]`. -/
theorem C6_disconnect_group_witness :
    mapGet (handleClose { rooms := [], groups := [(7, sampleGroupC6)] } 0).1.groups 7
      = none ∧
    (1, ServerMsg.groupClosed 7 (some "Host disconnected"))
      ∈ (handleClose { rooms := [], groups := [(7, sampleGroupC6)] } 0).2 ∧
    handleJoinGroup (handleClose { rooms := [], groups := [(7, sampleGroupC6)] } 0).1 5 7
      = ((handleClose { rooms := [], groups := [(7, sampleGroupC6)] } 0).1,
         [(5, ServerMsg.error "Group not found")]) ∧
    mapGet (handleClose { rooms := [], groups := [(7, sampleGroupC6)] } 2).1.groups 7
      = some { host := 0, members := [0, 1], maxMembers := 20,
               isOpen := true, createdAt := 0 } := by
  have h0 := C6_disconnect_group { rooms := [], groups := [(7, sampleGroupC6)] } 0 5 7
    sampleGroupC6 (by decide) (by decide) (by decide)
  have h2 := C6_disconnect_group { rooms := [], groups := [(7, sampleGroupC6)] } 2 5 7
    sampleGroupC6 (by decide) (by decide) (by decide)
  refine ⟨(h0.1 rfl).1, (h0.1 rfl).2.1 1 (by decide) (by decide), (h0.1 rfl).2.2, ?_⟩
  have h3 := (h2.2.2 (by decide) (by decide)).1
  simpa [sampleGroupC6] using h3

/-! ### Claim C8: room cleanup on disconnect -/

/-- Claim C8.  When a connection `ws` closes, every pair-session in which it
is host or guest is deleted from the room registry unconditionally, a
subsequent `join-room` on such an id yields the error record (the
SessionNotFound outcome), and the room teardown emits no outbound message:
every send of the whole disconnect handler originates from group teardown
(it is a `group-closed\x7b"Host disconnected"\x7d` record of some group whose
host is the closed connection), so the surviving peer of a deleted
pair-session receives nothing from the pair-session cleanup. -/
theorem C8_disconnect_rooms (st : ServerState) (ws c : Conn) (rid : Nat) (room : Room)
    (hn : (st.rooms.map Prod.fst).Nodup)
    (hget : mapGet st.rooms rid = some room)
    (hws : room.host = ws ∨ room.guest = some ws) :
    mapGet (handleClose st ws).1.rooms rid = none ∧
    handleJoinRoom (handleClose st ws).1 c rid
      = ((handleClose st ws).1, [(c, ServerMsg.error "Room not found or full")]) ∧
    ∀ s ∈ (handleClose st ws).2, ∃ gid2 g2, (gid2, g2) ∈ st.groups ∧
      g2.host = ws ∧ ∃ m, m ∈ g2.members ∧ m ≠ ws ∧
        s = (m, ServerMsg.groupClosed gid2 (some "Host disconnected")) := by
  have hrooms : (handleClose st ws).1.rooms = cleanupRooms st.rooms ws := rfl
  have hnone : mapGet (handleClose st ws).1.rooms rid = none := by
    rw [hrooms]
    apply mapGet_filter_none st.rooms rid room _ hn hget
    rcases hws with h | h <;> simp [h]
  refine ⟨hnone, ?_, ?_⟩
  · unfold handleJoinRoom
    rw [hnone]
  · intro s hs
    have hs2 : s ∈ (cleanupGroups st.groups ws).2 := hs
    rcases cleanupGroups_sends_source st.groups ws s hs2 with ⟨gid2, g2, hmem2, hcs⟩
    rcases cleanupGroup_sends_shape gid2 g2 ws s hcs with ⟨hhost, m, hm1, hm2, hform⟩
    exact ⟨gid2, g2, hmem2, hhost, m, hm1, hm2, hform⟩

/-- Claim C8, witness.  Connection 1 (guest of room 1, stranger to room 2)
disconnects: room 1 is deleted, room 2 survives, a later join by 5 on id 1
errors, and the teardown sends nothing (no groups exist). -/
theorem C8_disconnect_rooms_witness :
    mapGet (handleClose
        { rooms := [(1, { host := 0, guest := some 1 }), (2, { host := 3, guest := none })],
          groups := [] } 1).1.rooms 1 = none ∧
    handleJoinRoom (handleClose
        { rooms := [(1, { host := 0, guest := some 1 }), (2, { host := 3, guest := none })],
          groups := [] } 1).1 5 1
      = ((handleClose
          { rooms := [(1, { host := 0, guest := some 1 }), (2, { host := 3, guest := none })],
            groups := [] } 1).1,
         [(5, ServerMsg.error "Room not found or full")]) := by
  have h := C8_disconnect_rooms
    { rooms := [(1, { host := 0, guest := some 1 }), (2, { host := 3, guest := none })],
      groups := [] } 1 5 1 { host := 0, guest := some 1 }
    (by decide) (by decide) (Or.inr (by decide))
  exact ⟨h.1, h.2.1⟩

end InShareX
